import Mathlib

/-!
Verification of the channel payment validation engine and the etcd storage
configuration loader of snet-daemon.

The repository sources at hand are `escrow/validation_test.go` (the test
suite of the validator, which contains the `Sign` message builder) and
`etcddb/payment_channel_storage.go` (the configuration loader).  The
validator implementation itself (`escrow/validation.go`) is not among the
sources, so the pipeline is modelled from the specification; definitions
taken from a source file say so in their doc comment.

Conventions of the embedding:
- byte strings are `List Nat` (each entry intended below 256);
- Go `*big.Int` amounts and nonces are `Nat` (the spec requires unsigned
  arbitrary-precision integers);
- the injected collaborators (block-height oracle, expiration-threshold
  policy, signature recovery) are explicit function arguments, so the
  validator stays a pure function of its inputs plus capabilities;
- `Validate` returns `none` for the Go `nil` (authorized) and
  `some PaymentError` for a classified rejection.
-/

namespace Escrow

/-- Error codes of the payment error taxonomy: caller fault versus system
fault. -/
inductive ErrorCode where
  | Unauthenticated : ErrorCode
  | Internal : ErrorCode
deriving DecidableEq, Repr

/-- Classified payment error: a kind plus a human-readable message.  The
message text is part of the observable contract. -/
structure PaymentError where
  code : ErrorCode
  message : String
deriving DecidableEq, Repr

/-- A claim presented by the caller: channel id, claimed channel generation,
cumulative amount, contract address bytes and a signature byte string. -/
structure Payment where
  channelID : Nat
  channelNonce : Nat
  amount : Nat
  mpeContractAddress : List Nat
  signature : List Nat
deriving DecidableEq, Repr

/-- Authoritative channel state supplied by the storage collaborator. -/
structure PaymentChannelData where
  nonce : Nat
  sender : List Nat
  recipient : List Nat
  groupId : Nat
  fullAmount : Nat
  expiration : Nat
  authorizedAmount : Nat
  signature : List Nat
deriving DecidableEq, Repr

/-- Big-endian encoding of `v` into exactly `n` bytes, most significant
byte first, left-zero-padded. -/
def natToBytesBE : Nat → Nat → List Nat
  | 0, _ => []
  | n + 1, v => natToBytesBE n (v / 256) ++ [v % 256]

/-- Modelled from the spec: `bigIntToBytes` (used by both signer and
verifier, not among the sources) encodes a value as a fixed-width 32-byte
big-endian unsigned integer, left-zero-padded. -/
def bigIntToBytes (v : Nat) : List Nat :=
  natToBytesBE 32 v

/-- Big-endian decoding of a byte string back to a natural number. -/
def bytesToNatBE (l : List Nat) : Nat :=
  l.foldl (fun a b => a * 256 + b) 0

/-- Go `bytes.Join`: concatenates the parts interleaving the separator. -/
def joinBytes : List (List Nat) → List Nat → List Nat
  | [], _ => []
  | [x], _ => x
  | x :: y :: xs, sep => x ++ sep ++ joinBytes (y :: xs) sep

/-- From source `escrow/validation_test.go`, `Sign`: the message that is
signed is `bytes.Join` of the contract address bytes and the 32-byte
encodings of channel id, channel nonce and amount, with a nil separator. -/
def signMessage (payment : Payment) : List Nat :=
  joinBytes [payment.mpeContractAddress,
             bigIntToBytes payment.channelID,
             bigIntToBytes payment.channelNonce,
             bigIntToBytes payment.amount] []

/-- Modelled from the spec: the canonical message builder of the verifier
concatenates, in this fixed order and with no separators or length
prefixes, the raw contract address bytes and the 32-byte big-endian
encodings of channel id, channel nonce and amount. -/
def canonicalMessage (payment : Payment) : List Nat :=
  payment.mpeContractAddress
    ++ bigIntToBytes payment.channelID
    ++ bigIntToBytes payment.channelNonce
    ++ bigIntToBytes payment.amount

/-- Modelled from the spec: the signature verifier fails on any signature
that is not exactly 65 bytes; otherwise it forwards to the structural
ECDSA address recovery `recover`, an injected capability which returns
`none` when recovery fails (invalid recovery id, malformed components). -/
def getSignerAddress (recover : List Nat → List Nat → Option (List Nat))
    (message : List Nat) (signature : List Nat) : Option (List Nat) :=
  if signature.length = 65 then recover message signature else none

/-- Message of the nonce-mismatch rejection. -/
def nonceMismatchMsg (latest sent : Nat) : String :=
  "incorrect payment channel nonce, latest: " ++ Nat.repr latest
    ++ ", sent: " ++ Nat.repr sent

/-- Message of the near-expiry rejection. -/
def nearExpiredMsg (expiration currentBlock threshold : Nat) : String :=
  "payment channel is near to be expired, expiration time: "
    ++ Nat.repr expiration
    ++ ", current block: " ++ Nat.repr currentBlock
    ++ ", expiration threshold: " ++ Nat.repr threshold

/-- Message of the insufficient-funding rejection. -/
def notEnoughTokensMsg (fullAmount paymentAmount : Nat) : String :=
  "not enough tokens on payment channel, channel amount: "
    ++ Nat.repr fullAmount
    ++ ", payment amount: " ++ Nat.repr paymentAmount

/-- The injected collaborators of the validator: the block-height oracle (which
may fail) and the expiration-threshold policy, both thunks as in the Go
struct so that invocation is observable. -/
structure ChannelPaymentValidator where
  currentBlock : Unit → Except String Nat
  paymentExpirationThreshold : Unit → Nat

/-- Modelled from the spec: steps 3 and 4 of the pipeline — build the
canonical message, recover the signer address (propagating structural
failure), compare with the channel sender, then check funding against the full
amount of the channel. -/
def authAndFundingCheck (recover : List Nat → List Nat → Option (List Nat))
    (payment : Payment) (channel : PaymentChannelData) : Option PaymentError :=
  match getSignerAddress recover (canonicalMessage payment) payment.signature with
  | none => some ⟨ErrorCode.Unauthenticated, "payment signature is not valid"⟩
  | some signer =>
    if signer ≠ channel.sender then
      some ⟨ErrorCode.Unauthenticated, "payment is not signed by channel sender"⟩
    else if channel.fullAmount < payment.amount then
      some ⟨ErrorCode.Unauthenticated,
            notEnoughTokensMsg channel.fullAmount payment.amount⟩
    else
      none

/-- Modelled from the spec: `Validate(claim, channelState)` runs the fixed
ordered pipeline, short-circuiting at the first failure — nonce check,
block-height oracle, expiration threshold, signature authenticity,
funding — and returns `none` (authorized) or a classified error. -/
def Validate (recover : List Nat → List Nat → Option (List Nat))
    (validator : ChannelPaymentValidator)
    (payment : Payment) (channel : PaymentChannelData) : Option PaymentError :=
  if payment.channelNonce ≠ channel.nonce then
    some ⟨ErrorCode.Unauthenticated,
          nonceMismatchMsg channel.nonce payment.channelNonce⟩
  else
    match validator.currentBlock () with
    | Except.error _ =>
      some ⟨ErrorCode.Internal, "cannot determine current block"⟩
    | Except.ok currentBlock =>
      let threshold := validator.paymentExpirationThreshold ()
      if channel.expiration ≤ currentBlock + threshold then
        some ⟨ErrorCode.Unauthenticated,
              nearExpiredMsg channel.expiration currentBlock threshold⟩
      else
        authAndFundingCheck recover payment channel

/-- State-passing form of `Validate`: the engine threads its two inputs
through unchanged, making the absence of mutation explicit. -/
def ValidateRun (recover : List Nat → List Nat → Option (List Nat))
    (validator : ChannelPaymentValidator)
    (payment : Payment) (channel : PaymentChannelData) :
    Option PaymentError × Payment × PaymentChannelData :=
  (Validate recover validator payment channel, payment, channel)

end Escrow

namespace Etcddb

/-- From source `etcddb/payment_channel_storage.go`: embedded etcd server
configuration. -/
structure PaymentChannelStorageServerConf where
  id : String
  scheme : String
  host : String
  clientPort : Int
  peerPort : Int
  token : String
  cluster : String
  enabled : Bool
deriving DecidableEq, Repr

/-- From source `etcddb/payment_channel_storage.go`: the default values
with which `GetPaymentChannelStorageServerConf` initializes `conf`. -/
def defaultServerConf : PaymentChannelStorageServerConf :=
  { id := "storage-1"
    scheme := "http"
    host := "127.0.0.1"
    clientPort := 2379
    peerPort := 2380
    token := "unique-token"
    cluster := "storage-1=http://127.0.0.1:2380"
    enabled := false }

/-- Raw contents found under the PAYMENT_CHANNEL_STORAGE_SERVER key of a
viper configuration: each field is present (`some`) or absent (`none`).
The viper `UnmarshalKey` overlays only the present fields over the passed
struct. -/
structure RawServerConf where
  id : Option String
  scheme : Option String
  host : Option String
  clientPort : Option Int
  peerPort : Option Int
  token : Option String
  cluster : Option String
  enabled : Option Bool
deriving DecidableEq, Repr

/-- Abstraction of the viper configuration: the storage-server key is
absent (`none`), present but undecodable (`some (Except.error e)`), or
present with decoded raw contents (`some (Except.ok raw)`). -/
structure Vip where
  serverKey : Option (Except String RawServerConf)

/-- Viper `UnmarshalKey` on the decoded raw contents: overlay every
present field of the raw configuration over `conf`. -/
def unmarshalServerKey (raw : RawServerConf)
    (conf : PaymentChannelStorageServerConf) : PaymentChannelStorageServerConf :=
  { id := raw.id.getD conf.id
    scheme := raw.scheme.getD conf.scheme
    host := raw.host.getD conf.host
    clientPort := raw.clientPort.getD conf.clientPort
    peerPort := raw.peerPort.getD conf.peerPort
    token := raw.token.getD conf.token
    cluster := raw.cluster.getD conf.cluster
    enabled := raw.enabled.getD conf.enabled }

/-- From source `etcddb/payment_channel_storage.go`,
`GetPaymentChannelStorageServerConf`: start from the defaults; if the
storage-server key is not in the configuration, return them with a nil
error; otherwise force `Enabled` to true and unmarshal the key contents
over the defaults.  The second component is the Go `err` result. -/
def GetPaymentChannelStorageServerConf (vip : Vip) :
    PaymentChannelStorageServerConf × Option String :=
  let conf := defaultServerConf
  match vip.serverKey with
  | none => (conf, none)
  | some contents =>
    let conf := { conf with enabled := true }
    match contents with
    | Except.error e => (conf, some e)
    | Except.ok raw => (unmarshalServerKey raw conf, none)

end Etcddb

namespace Escrow

/-- Claim C2: whenever the claimed channel nonce differs from the nonce of the
channel state, `Validate` returns the Unauthenticated nonce error with
both values substituted, for every oracle, threshold policy and recovery
capability — so no later pipeline step is reached even on an otherwise
fully valid claim. -/
theorem validate_nonce_mismatch
    (recover : List Nat → List Nat → Option (List Nat))
    (validator : ChannelPaymentValidator)
    (payment : Payment) (channel : PaymentChannelData)
    (h : payment.channelNonce ≠ channel.nonce) :
    Validate recover validator payment channel =
      some ⟨ErrorCode.Unauthenticated,
            "incorrect payment channel nonce, latest: " ++ Nat.repr channel.nonce
              ++ ", sent: " ++ Nat.repr payment.channelNonce⟩ := by
  simp [Validate, h, nonceMismatchMsg]

/-- Witness for C2: the test scenario — nonce sent 2, latest 3, with a
failing oracle to exhibit that no later step is consulted. -/
theorem validate_nonce_mismatch_witness :
    Validate (fun _ _ => none)
      ⟨fun _ => Except.error "blockchain error", fun _ => 0⟩
      { channelID := 42, channelNonce := 2, amount := 12345,
        mpeContractAddress := [], signature := [] }
      { nonce := 3, sender := [], recipient := [], groupId := 1,
        fullAmount := 12345, expiration := 100, authorizedAmount := 12300,
        signature := [] } =
      some ⟨ErrorCode.Unauthenticated,
            "incorrect payment channel nonce, latest: 3, sent: 2"⟩ := by
  have h := validate_nonce_mismatch (fun _ _ => none)
    ⟨fun _ => Except.error "blockchain error", fun _ => 0⟩
    { channelID := 42, channelNonce := 2, amount := 12345,
      mpeContractAddress := [], signature := [] }
    { nonce := 3, sender := [], recipient := [], groupId := 1,
      fullAmount := 12345, expiration := 100, authorizedAmount := 12300,
      signature := [] }
    (by decide)
  simpa using h

/-- Claim C5: whenever the nonce check passes and the block-height oracle
fails, `Validate` returns the Internal error with the exact message, for
every expiration-threshold policy — in particular the result does not
depend on the threshold function, so the policy is never invoked. -/
theorem validate_oracle_failure
    (recover : List Nat → List Nat → Option (List Nat))
    (e : String) (threshold : Unit → Nat)
    (payment : Payment) (channel : PaymentChannelData)
    (h : payment.channelNonce = channel.nonce) :
    Validate recover ⟨fun _ => Except.error e, threshold⟩ payment channel =
      some ⟨ErrorCode.Internal, "cannot determine current block"⟩ := by
  simp [Validate, h]

/-- The message built by the test-suite signer and the canonical message
rebuilt by the verifier coincide: `bytes.Join` with a nil separator is
plain concatenation. -/
theorem signMessage_eq_canonicalMessage (payment : Payment) :
    signMessage payment = canonicalMessage payment := by
  simp [signMessage, canonicalMessage, joinBytes]

/-- Claim C3: when the nonce and liveness checks pass, a signature that is
not exactly 65 bytes long, and a 65-byte signature on which structural
recovery fails, both yield the same Unauthenticated error with message
exactly "payment signature is not valid". -/
theorem validate_bad_signature
    (recover : List Nat → List Nat → Option (List Nat))
    (cb th : Nat) (payment : Payment) (channel : PaymentChannelData)
    (hn : payment.channelNonce = channel.nonce)
    (hexp : cb + th < channel.expiration)
    (hsig : payment.signature.length ≠ 65 ∨
            recover (canonicalMessage payment) payment.signature = none) :
    Validate recover ⟨fun _ => Except.ok cb, fun _ => th⟩ payment channel =
      some ⟨ErrorCode.Unauthenticated, "payment signature is not valid"⟩ := by
  have hlt : ¬ channel.expiration ≤ cb + th := Nat.not_le.mpr hexp
  have hrec : getSignerAddress recover (canonicalMessage payment)
      payment.signature = none := by
    rcases hsig with h1 | h2
    · simp [getSignerAddress, h1]
    · simp [getSignerAddress, h2]
  simp [Validate, hn, hlt, authAndFundingCheck, hrec]

/-- Witness for C3: both failure modes at concrete inputs — a 2-byte
signature, and a 65-byte signature rejected by the recovery capability —
produce the very same error. -/
theorem validate_bad_signature_witness :
    Validate (fun _ _ => none) ⟨fun _ => Except.ok 99, fun _ => 0⟩
      { channelID := 42, channelNonce := 3, amount := 12345,
        mpeContractAddress := [], signature := [0, 0] }
      { nonce := 3, sender := [], recipient := [], groupId := 1,
        fullAmount := 12345, expiration := 100, authorizedAmount := 12300,
        signature := [] } =
      some ⟨ErrorCode.Unauthenticated, "payment signature is not valid"⟩ ∧
    Validate (fun _ _ => none) ⟨fun _ => Except.ok 99, fun _ => 0⟩
      { channelID := 42, channelNonce := 3, amount := 12345,
        mpeContractAddress := [], signature := List.replicate 65 255 }
      { nonce := 3, sender := [], recipient := [], groupId := 1,
        fullAmount := 12345, expiration := 100, authorizedAmount := 12300,
        signature := [] } =
      some ⟨ErrorCode.Unauthenticated, "payment signature is not valid"⟩ := by
  constructor
  · exact validate_bad_signature (fun _ _ => none) 99 0
      { channelID := 42, channelNonce := 3, amount := 12345,
        mpeContractAddress := [], signature := [0, 0] }
      { nonce := 3, sender := [], recipient := [], groupId := 1,
        fullAmount := 12345, expiration := 100, authorizedAmount := 12300,
        signature := [] }
      (by decide) (by decide) (Or.inl (by decide))
  · exact validate_bad_signature (fun _ _ => none) 99 0
      { channelID := 42, channelNonce := 3, amount := 12345,
        mpeContractAddress := [], signature := List.replicate 65 255 }
      { nonce := 3, sender := [], recipient := [], groupId := 1,
        fullAmount := 12345, expiration := 100, authorizedAmount := 12300,
        signature := [] }
      (by decide) (by decide) (Or.inr rfl)

/-- Claim C4: when the earlier checks pass and the 65-byte signature
structurally recovers to an address different from the channel sender,
`Validate` returns the Unauthenticated error with message exactly
"payment is not signed by channel sender". -/
theorem validate_wrong_signer
    (recover : List Nat → List Nat → Option (List Nat))
    (cb th : Nat) (payment : Payment) (channel : PaymentChannelData)
    (signer : List Nat)
    (hn : payment.channelNonce = channel.nonce)
    (hexp : cb + th < channel.expiration)
    (hlen : payment.signature.length = 65)
    (hrec : recover (canonicalMessage payment) payment.signature = some signer)
    (hne : signer ≠ channel.sender) :
    Validate recover ⟨fun _ => Except.ok cb, fun _ => th⟩ payment channel =
      some ⟨ErrorCode.Unauthenticated, "payment is not signed by channel sender"⟩ := by
  have hlt : ¬ channel.expiration ≤ cb + th := Nat.not_le.mpr hexp
  simp [Validate, hn, hlt, authAndFundingCheck, getSignerAddress, hlen, hrec, hne]

/-- Witness for C4: a 65-byte signature recovering to address `[1]` against
a channel whose sender is `[2]`. -/
theorem validate_wrong_signer_witness :
    Validate (fun _ _ => some [1]) ⟨fun _ => Except.ok 99, fun _ => 0⟩
      { channelID := 42, channelNonce := 3, amount := 12345,
        mpeContractAddress := [], signature := List.replicate 65 0 }
      { nonce := 3, sender := [2], recipient := [], groupId := 1,
        fullAmount := 12345, expiration := 100, authorizedAmount := 12300,
        signature := [] } =
      some ⟨ErrorCode.Unauthenticated, "payment is not signed by channel sender"⟩ :=
  validate_wrong_signer (fun _ _ => some [1]) 99 0
    { channelID := 42, channelNonce := 3, amount := 12345,
      mpeContractAddress := [], signature := List.replicate 65 0 }
    { nonce := 3, sender := [2], recipient := [], groupId := 1,
      fullAmount := 12345, expiration := 100, authorizedAmount := 12300,
      signature := [] }
    [1] (by decide) (by decide) (by decide) rfl (by decide)

/-- Claim C6: with the oracle returning `cb` and the policy returning `th`,
and the nonce check passing, the liveness check rejects exactly on
`expiration ≤ cb + th`, with the exact parameterized message; in
particular `expiration = cb + th` is rejected while
`expiration = cb + th + 1` passes it and the pipeline proceeds to the
authenticity and funding steps. -/
theorem validate_expiration_boundary
    (recover : List Nat → List Nat → Option (List Nat))
    (cb th : Nat) (payment : Payment) (channel : PaymentChannelData)
    (hn : payment.channelNonce = channel.nonce) :
    (channel.expiration ≤ cb + th →
      Validate recover ⟨fun _ => Except.ok cb, fun _ => th⟩ payment channel =
        some ⟨ErrorCode.Unauthenticated,
          "payment channel is near to be expired, expiration time: "
            ++ Nat.repr channel.expiration
            ++ ", current block: " ++ Nat.repr cb
            ++ ", expiration threshold: " ++ Nat.repr th⟩) ∧
    (channel.expiration = cb + th →
      Validate recover ⟨fun _ => Except.ok cb, fun _ => th⟩ payment channel =
        some ⟨ErrorCode.Unauthenticated,
          "payment channel is near to be expired, expiration time: "
            ++ Nat.repr (cb + th)
            ++ ", current block: " ++ Nat.repr cb
            ++ ", expiration threshold: " ++ Nat.repr th⟩) ∧
    (cb + th < channel.expiration →
      Validate recover ⟨fun _ => Except.ok cb, fun _ => th⟩ payment channel =
        authAndFundingCheck recover payment channel) ∧
    (channel.expiration = cb + th + 1 →
      Validate recover ⟨fun _ => Except.ok cb, fun _ => th⟩ payment channel =
        authAndFundingCheck recover payment channel) := by
  refine ⟨?_, ?_, ?_, ?_⟩
  · intro hle
    simp [Validate, hn, hle, nearExpiredMsg]
  · intro heq
    simp [Validate, hn, heq, nearExpiredMsg]
  · intro hgt
    simp [Validate, hn, Nat.not_le.mpr hgt]
  · intro heq
    have hgt : cb + th < channel.expiration := by omega
    simp [Validate, hn, Nat.not_le.mpr hgt]

/-- Witness for C6: the two test scenarios — expiration 99 at block 99 with
threshold 0 is rejected with the exact message, and expiration 100 at the
same block passes the liveness check. -/
theorem validate_expiration_boundary_witness :
    Validate (fun _ _ => none) ⟨fun _ => Except.ok 99, fun _ => 0⟩
      { channelID := 42, channelNonce := 3, amount := 12345,
        mpeContractAddress := [], signature := [] }
      { nonce := 3, sender := [], recipient := [], groupId := 1,
        fullAmount := 12345, expiration := 99, authorizedAmount := 12300,
        signature := [] } =
      some ⟨ErrorCode.Unauthenticated,
        "payment channel is near to be expired, expiration time: 99, current block: 99, expiration threshold: 0"⟩ ∧
    Validate (fun _ _ => none) ⟨fun _ => Except.ok 99, fun _ => 0⟩
      { channelID := 42, channelNonce := 3, amount := 12345,
        mpeContractAddress := [], signature := [] }
      { nonce := 3, sender := [], recipient := [], groupId := 1,
        fullAmount := 12345, expiration := 100, authorizedAmount := 12300,
        signature := [] } =
      authAndFundingCheck (fun _ _ => none)
        { channelID := 42, channelNonce := 3, amount := 12345,
          mpeContractAddress := [], signature := [] }
        { nonce := 3, sender := [], recipient := [], groupId := 1,
          fullAmount := 12345, expiration := 100, authorizedAmount := 12300,
          signature := [] } := by
  constructor
  · have h := (validate_expiration_boundary (fun _ _ => none) 99 0
      { channelID := 42, channelNonce := 3, amount := 12345,
        mpeContractAddress := [], signature := [] }
      { nonce := 3, sender := [], recipient := [], groupId := 1,
        fullAmount := 12345, expiration := 99, authorizedAmount := 12300,
        signature := [] }
      (by decide)).2.1 (by decide)
    simpa using h
  · exact (validate_expiration_boundary (fun _ _ => none) 99 0
      { channelID := 42, channelNonce := 3, amount := 12345,
        mpeContractAddress := [], signature := [] }
      { nonce := 3, sender := [], recipient := [], groupId := 1,
        fullAmount := 12345, expiration := 100, authorizedAmount := 12300,
        signature := [] }
      (by decide)).2.2.2 (by decide)

/-- Witness for C5: the test scenario — a fully valid claim against a
failing oracle yields the Internal error. -/
theorem validate_oracle_failure_witness :
    Validate (fun _ _ => none)
      ⟨fun _ => Except.error "blockchain error", fun _ => 0⟩
      { channelID := 42, channelNonce := 3, amount := 12345,
        mpeContractAddress := [], signature := [] }
      { nonce := 3, sender := [], recipient := [], groupId := 1,
        fullAmount := 12345, expiration := 100, authorizedAmount := 12300,
        signature := [] } =
      some ⟨ErrorCode.Internal, "cannot determine current block"⟩ := by
  have h := validate_oracle_failure (fun _ _ => none) "blockchain error"
    (fun _ => 0)
    { channelID := 42, channelNonce := 3, amount := 12345,
      mpeContractAddress := [], signature := [] }
    { nonce := 3, sender := [], recipient := [], groupId := 1,
      fullAmount := 12345, expiration := 100, authorizedAmount := 12300,
      signature := [] }
    (by decide)
  simpa using h

/-- Claim C7: once the nonce, liveness and authenticity checks pass, the
funding check passes exactly when the claimed amount is at most the
full amount of the channel — `amount = fullAmount` is accepted while
`amount = fullAmount + 1` is rejected with the exact parameterized
message — and the outcome does not depend on `authorizedAmount`. -/
theorem validate_funding_boundary
    (recover : List Nat → List Nat → Option (List Nat))
    (cb th : Nat) (payment : Payment) (channel : PaymentChannelData)
    (hn : payment.channelNonce = channel.nonce)
    (hexp : cb + th < channel.expiration)
    (hlen : payment.signature.length = 65)
    (hrec : recover (canonicalMessage payment) payment.signature =
              some channel.sender) :
    (payment.amount ≤ channel.fullAmount →
      Validate recover ⟨fun _ => Except.ok cb, fun _ => th⟩ payment channel =
        none) ∧
    (channel.fullAmount < payment.amount →
      Validate recover ⟨fun _ => Except.ok cb, fun _ => th⟩ payment channel =
        some ⟨ErrorCode.Unauthenticated,
          "not enough tokens on payment channel, channel amount: "
            ++ Nat.repr channel.fullAmount
            ++ ", payment amount: " ++ Nat.repr payment.amount⟩) ∧
    (payment.amount = channel.fullAmount + 1 →
      Validate recover ⟨fun _ => Except.ok cb, fun _ => th⟩ payment channel =
        some ⟨ErrorCode.Unauthenticated,
          "not enough tokens on payment channel, channel amount: "
            ++ Nat.repr channel.fullAmount
            ++ ", payment amount: " ++ Nat.repr (channel.fullAmount + 1)⟩) ∧
    (∀ a : Nat,
      Validate recover ⟨fun _ => Except.ok cb, fun _ => th⟩ payment
          { channel with authorizedAmount := a } =
        Validate recover ⟨fun _ => Except.ok cb, fun _ => th⟩ payment channel) := by
  have hlt : ¬ channel.expiration ≤ cb + th := Nat.not_le.mpr hexp
  refine ⟨?_, ?_, ?_, ?_⟩
  · intro hle
    simp [Validate, hn, hlt, authAndFundingCheck, getSignerAddress, hlen, hrec,
          Nat.not_lt.mpr hle]
  · intro hgt
    simp [Validate, hn, hlt, authAndFundingCheck, getSignerAddress, hlen, hrec,
          hgt, notEnoughTokensMsg]
  · intro heq
    have hgt : channel.fullAmount < payment.amount := by omega
    simp [Validate, hn, hlt, authAndFundingCheck, getSignerAddress, hlen, hrec,
          hgt, notEnoughTokensMsg, heq]
  · intro a
    simp [Validate, hn, hlt, authAndFundingCheck, getSignerAddress, hlen, hrec]

/-- Witness for C7: the concrete scenario of the spec — full amount 12345,
claimed amount 12345 accepted, claimed amount 12346 rejected with the
exact quoted amounts. -/
theorem validate_funding_boundary_witness :
    Validate (fun _ _ => some [7]) ⟨fun _ => Except.ok 99, fun _ => 0⟩
      { channelID := 42, channelNonce := 3, amount := 12345,
        mpeContractAddress := [], signature := List.replicate 65 0 }
      { nonce := 3, sender := [7], recipient := [], groupId := 1,
        fullAmount := 12345, expiration := 100, authorizedAmount := 12300,
        signature := [] } = none ∧
    Validate (fun _ _ => some [7]) ⟨fun _ => Except.ok 99, fun _ => 0⟩
      { channelID := 42, channelNonce := 3, amount := 12346,
        mpeContractAddress := [], signature := List.replicate 65 0 }
      { nonce := 3, sender := [7], recipient := [], groupId := 1,
        fullAmount := 12345, expiration := 100, authorizedAmount := 12300,
        signature := [] } =
      some ⟨ErrorCode.Unauthenticated,
        "not enough tokens on payment channel, channel amount: 12345, payment amount: 12346"⟩ := by
  constructor
  · exact (validate_funding_boundary (fun _ _ => some [7]) 99 0
      { channelID := 42, channelNonce := 3, amount := 12345,
        mpeContractAddress := [], signature := List.replicate 65 0 }
      { nonce := 3, sender := [7], recipient := [], groupId := 1,
        fullAmount := 12345, expiration := 100, authorizedAmount := 12300,
        signature := [] }
      (by decide) (by decide) (by decide) rfl).1 (by decide)
  · have h := (validate_funding_boundary (fun _ _ => some [7]) 99 0
      { channelID := 42, channelNonce := 3, amount := 12346,
        mpeContractAddress := [], signature := List.replicate 65 0 }
      { nonce := 3, sender := [7], recipient := [], groupId := 1,
        fullAmount := 12345, expiration := 100, authorizedAmount := 12300,
        signature := [] }
      (by decide) (by decide) (by decide) rfl).2.1 (by decide)
    simpa using h

/-- Claim C1: round-trip acceptance — a claim whose signature is produced
by an abstract signing capability over the canonical message built by the
test-suite signer, with a key recovering to the channel sender, against a
channel with matching nonce, sufficient funding and non-expiring channel,
always validates successfully. -/
theorem validate_round_trip
    (recover : List Nat → List Nat → Option (List Nat))
    (sign : List Nat → List Nat) (senderAddr : List Nat)
    (hlen : ∀ m, (sign m).length = 65)
    (hrec : ∀ m, recover m (sign m) = some senderAddr)
    (payment : Payment) (channel : PaymentChannelData) (cb th : Nat)
    (hsig : payment.signature = sign (signMessage payment))
    (hsender : channel.sender = senderAddr)
    (hn : payment.channelNonce = channel.nonce)
    (hamount : payment.amount ≤ channel.fullAmount)
    (hexp : cb + th < channel.expiration) :
    Validate recover ⟨fun _ => Except.ok cb, fun _ => th⟩ payment channel =
      none := by
  have hlt : ¬ channel.expiration ≤ cb + th := Nat.not_le.mpr hexp
  have hmsg := signMessage_eq_canonicalMessage payment
  have hrecover : recover (canonicalMessage payment) payment.signature =
      some channel.sender := by
    rw [hsig, ← hmsg, hrec, hsender]
  have hsiglen : payment.signature.length = 65 := by
    rw [hsig]; exact hlen _
  simp [Validate, hn, hlt, authAndFundingCheck, getSignerAddress, hsiglen,
        hrecover, Nat.not_lt.mpr hamount]

/-- Witness for C1: a toy signing and recovery capability (the address is
the last byte of the 65-byte signature) on the test scenario. -/
theorem validate_round_trip_witness :
    Validate (fun _ s => some (s.drop 64)) ⟨fun _ => Except.ok 99, fun _ => 0⟩
      { channelID := 42, channelNonce := 3, amount := 12345,
        mpeContractAddress := [18, 52], signature := List.replicate 64 0 ++ [7] }
      { nonce := 3, sender := [7], recipient := [9], groupId := 1,
        fullAmount := 12345, expiration := 100, authorizedAmount := 12300,
        signature := [] } = none := by
  have h := validate_round_trip (fun _ s => some (s.drop 64))
    (fun _ => List.replicate 64 0 ++ [7]) [7]
    (by intro m
        show (List.replicate 64 0 ++ [7]).length = 65
        decide)
    (by intro m
        show some ((List.replicate 64 0 ++ [7]).drop 64) = some [7]
        decide)
    { channelID := 42, channelNonce := 3, amount := 12345,
      mpeContractAddress := [18, 52], signature := List.replicate 64 0 ++ [7] }
    { nonce := 3, sender := [7], recipient := [9], groupId := 1,
      fullAmount := 12345, expiration := 100, authorizedAmount := 12300,
      signature := [] }
    99 0 rfl rfl (by decide) (by decide) (by decide)
  exact h

/-- Fixed-width big-endian encoding always produces exactly `n` bytes. -/
theorem natToBytesBE_length (n : Nat) : ∀ v : Nat, (natToBytesBE n v).length = n := by
  induction n with
  | zero => intro v; rfl
  | succ n ih =>
    intro v
    simp [natToBytesBE, ih]

/-- Decoding after appending one byte multiplies the prefix value by the
base and adds the byte. -/
theorem bytesToNatBE_append_one (l : List Nat) (b : Nat) :
    bytesToNatBE (l ++ [b]) = bytesToNatBE l * 256 + b := by
  simp [bytesToNatBE, List.foldl_append]

/-- Arithmetic step of the encoding round trip: pushing one base-256 digit
under the modulus. -/
theorem encode_mod_step (q r n : Nat) (hr : r < 256) :
    (256 * q + r) % 256 ^ (n + 1) = 256 * (q % 256 ^ n) + r := by
  have hqpos : 0 < 256 ^ n := pow_pos (by norm_num) n
  have h1 : q % 256 ^ n < 256 ^ n := Nat.mod_lt _ hqpos
  have hps : 256 ^ (n + 1) = 256 ^ n * 256 := pow_succ 256 n
  have hlt : 256 * (q % 256 ^ n) + r < 256 ^ (n + 1) := by
    have h2 : 256 * (q % 256 ^ n) + 256 ≤ 256 * 256 ^ n := by omega
    omega
  have hdecomp : 256 * q + r =
      (256 * (q % 256 ^ n) + r) + 256 ^ (n + 1) * (q / 256 ^ n) := by
    have hq := Nat.div_add_mod q (256 ^ n)
    conv_lhs => rw [← hq]
    rw [hps]
    ring
  rw [hdecomp, Nat.add_mul_mod_self_left, Nat.mod_eq_of_lt hlt]

/-- The fixed-width big-endian encoding decodes back to the value modulo
the capacity of the width. -/
theorem bytesToNatBE_natToBytesBE (n : Nat) :
    ∀ v : Nat, bytesToNatBE (natToBytesBE n v) = v % 256 ^ n := by
  induction n with
  | zero =>
    intro v
    simp [natToBytesBE, bytesToNatBE, Nat.mod_one]
  | succ n ih =>
    intro v
    rw [natToBytesBE, bytesToNatBE_append_one, ih]
    have hstep := encode_mod_step (v / 256) (v % 256) n (Nat.mod_lt _ (by norm_num))
    have hv : 256 * (v / 256) + v % 256 = v := Nat.div_add_mod v 256
    rw [hv] at hstep
    rw [hstep]
    ring

/-- Claim C8: the message built by the test-suite signer is the flat
concatenation — no separators, no length prefixes — of the raw contract
address bytes and the 32-byte encodings of channel id, channel nonce and
amount; it coincides bit-for-bit with the canonical message of the verifier;
and each encoded field is exactly 32 bytes of big-endian, left-zero-padded
unsigned representation. -/
theorem canonical_message_layout :
    (∀ payment : Payment,
      signMessage payment =
        payment.mpeContractAddress
          ++ bigIntToBytes payment.channelID
          ++ bigIntToBytes payment.channelNonce
          ++ bigIntToBytes payment.amount) ∧
    (∀ payment : Payment, signMessage payment = canonicalMessage payment) ∧
    (∀ v : Nat, (bigIntToBytes v).length = 32) ∧
    (∀ v : Nat, v < 256 ^ 32 → bytesToNatBE (bigIntToBytes v) = v) := by
  refine ⟨?_, ?_, ?_, ?_⟩
  · intro payment
    simp [signMessage, joinBytes]
  · intro payment
    exact signMessage_eq_canonicalMessage payment
  · intro v
    exact natToBytesBE_length 32 v
  · intro v hv
    rw [bigIntToBytes, bytesToNatBE_natToBytesBE 32 v, Nat.mod_eq_of_lt hv]

/-- Witness for C8: the encoding of 12345 decodes back to 12345, and the
signed message of a concrete payment is the stated concatenation. -/
theorem canonical_message_layout_witness :
    bytesToNatBE (bigIntToBytes 12345) = 12345 ∧
    signMessage
      { channelID := 42, channelNonce := 3, amount := 12345,
        mpeContractAddress := [18, 52], signature := [] } =
      [18, 52] ++ bigIntToBytes 42 ++ bigIntToBytes 3 ++ bigIntToBytes 12345 := by
  constructor
  · exact canonical_message_layout.2.2.2 12345 (by norm_num)
  · exact canonical_message_layout.1
      { channelID := 42, channelNonce := 3, amount := 12345,
        mpeContractAddress := [18, 52], signature := [] }

/-- Claim C9: `Validate` mutates neither of its inputs — its state-passing
form returns the claim and the channel state unchanged — and is
deterministic: two invocations with equal inputs and equal oracle and
threshold collaborator results return equal outcomes. -/
theorem validate_pure
    (recover : List Nat → List Nat → Option (List Nat))
    (v1 v2 : ChannelPaymentValidator)
    (payment : Payment) (channel : PaymentChannelData)
    (hcb : v1.currentBlock () = v2.currentBlock ())
    (hth : v1.paymentExpirationThreshold () = v2.paymentExpirationThreshold ()) :
    Validate recover v1 payment channel = Validate recover v2 payment channel ∧
    (ValidateRun recover v1 payment channel).2.1 = payment ∧
    (ValidateRun recover v1 payment channel).2.2 = channel := by
  refine ⟨?_, rfl, rfl⟩
  unfold Validate
  rw [hcb, hth]

/-- Witness for C9: two syntactically distinct validators whose collaborator
results agree on the test scenario. -/
theorem validate_pure_witness :
    Validate (fun _ _ => none)
        ⟨fun _ => Except.ok (99 + 0), fun _ => 0⟩
        { channelID := 42, channelNonce := 3, amount := 12345,
          mpeContractAddress := [], signature := [] }
        { nonce := 3, sender := [], recipient := [], groupId := 1,
          fullAmount := 12345, expiration := 100, authorizedAmount := 12300,
          signature := [] } =
      Validate (fun _ _ => none)
        ⟨fun _ => Except.ok 99, fun _ => 0 + 0⟩
        { channelID := 42, channelNonce := 3, amount := 12345,
          mpeContractAddress := [], signature := [] }
        { nonce := 3, sender := [], recipient := [], groupId := 1,
          fullAmount := 12345, expiration := 100, authorizedAmount := 12300,
          signature := [] } ∧
    (ValidateRun (fun _ _ => none)
        ⟨fun _ => Except.ok (99 + 0), fun _ => 0⟩
        { channelID := 42, channelNonce := 3, amount := 12345,
          mpeContractAddress := [], signature := [] }
        { nonce := 3, sender := [], recipient := [], groupId := 1,
          fullAmount := 12345, expiration := 100, authorizedAmount := 12300,
          signature := [] }).2.1 =
      { channelID := 42, channelNonce := 3, amount := 12345,
        mpeContractAddress := [], signature := [] } ∧
    (ValidateRun (fun _ _ => none)
        ⟨fun _ => Except.ok (99 + 0), fun _ => 0⟩
        { channelID := 42, channelNonce := 3, amount := 12345,
          mpeContractAddress := [], signature := [] }
        { nonce := 3, sender := [], recipient := [], groupId := 1,
          fullAmount := 12345, expiration := 100, authorizedAmount := 12300,
          signature := [] }).2.2 =
      { nonce := 3, sender := [], recipient := [], groupId := 1,
        fullAmount := 12345, expiration := 100, authorizedAmount := 12300,
        signature := [] } :=
  validate_pure (fun _ _ => none)
    ⟨fun _ => Except.ok (99 + 0), fun _ => 0⟩
    ⟨fun _ => Except.ok 99, fun _ => 0 + 0⟩
    { channelID := 42, channelNonce := 3, amount := 12345,
      mpeContractAddress := [], signature := [] }
    { nonce := 3, sender := [], recipient := [], groupId := 1,
      fullAmount := 12345, expiration := 100, authorizedAmount := 12300,
      signature := [] }
    rfl rfl

end Escrow

namespace Etcddb

/-- Claim C10: with the storage-server key absent from the configuration,
`GetPaymentChannelStorageServerConf` returns a nil error and the fixed
defaults with `Enabled = false`; with the key present and decodable,
`Enabled` is forced to true before the key contents are unmarshalled over
the defaults, so presence of the key enables the embedded server unless
the configuration explicitly sets `Enabled` to false. -/
theorem getServerConf_spec :
    defaultServerConf =
      { id := "storage-1", scheme := "http", host := "127.0.0.1",
        clientPort := 2379, peerPort := 2380, token := "unique-token",
        cluster := "storage-1=http://127.0.0.1:2380", enabled := false } ∧
    (∀ vip : Vip, vip.serverKey = none →
      GetPaymentChannelStorageServerConf vip = (defaultServerConf, none)) ∧
    (∀ (vip : Vip) (raw : RawServerConf),
      vip.serverKey = some (Except.ok raw) →
      GetPaymentChannelStorageServerConf vip =
        (unmarshalServerKey raw { defaultServerConf with enabled := true }, none)) ∧
    (∀ raw : RawServerConf,
      (unmarshalServerKey raw { defaultServerConf with enabled := true }).enabled =
        raw.enabled.getD true) := by
  refine ⟨rfl, ?_, ?_, ?_⟩
  · intro vip h
    simp [GetPaymentChannelStorageServerConf, h]
  · intro vip raw h
    simp [GetPaymentChannelStorageServerConf, h]
  · intro raw
    rfl

/-- Witness for C10: the key-absent configuration yields the defaults with
a nil error, and a present key whose contents leave `Enabled` unset yields
an enabled configuration. -/
theorem getServerConf_spec_witness :
    GetPaymentChannelStorageServerConf ⟨none⟩ = (defaultServerConf, none) ∧
    (GetPaymentChannelStorageServerConf
        ⟨some (Except.ok ⟨none, none, none, none, none, none, none, none⟩)⟩).1.enabled =
      true := by
  constructor
  · exact getServerConf_spec.2.1 ⟨none⟩ rfl
  · rw [getServerConf_spec.2.2.1
      ⟨some (Except.ok ⟨none, none, none, none, none, none, none, none⟩)⟩
      ⟨none, none, none, none, none, none, none, none⟩ rfl]
    exact getServerConf_spec.2.2.2 ⟨none, none, none, none, none, none, none, none⟩

end Etcddb
